import Mathlib

/-!
Shallow embedding of `src/mcp_server.py` (XiamenBankCrm MCP server).

The server exposes three tools over a SQLite store:
  * `search_customers`  - filtered search over customer_info LEFT JOIN customer_persona
  * `search_wealth_products` - filtered search over wealth_products with a LIMIT
  * `analyze_suitability`   - risk/funds suitability scoring
plus a `require_auth` decorator checking an API key in HTTP headers.

Modelling conventions:
  * A database table is a list of row structures; the customer rows are the
    flattened LEFT JOIN result (persona fields nullable via `Option`).
  * SQL numerics are `Rat`; nullable columns are `Option _`.
  * Python optional parameters are `Option _`; Python truthiness of a value
    (`if value:`) is modelled explicitly (`0`, `""` and `None` are falsy).
  * `LIKE '%x%'` is modelled as substring containment (the spec delegates
    case/locale behavior to the store's default comparison).
  * SQLite `LIMIT n` with negative `n` imposes no bound (per the SQLite
    documentation: a negative LIMIT means no upper bound on rows returned).
-/

/-- Python truthiness of an optional integer argument: `None` and `0` are falsy. -/
def truthyInt (o : Option Int) : Bool :=
  match o with
  | none => false
  | some v => v != 0

/-- Python truthiness of an optional string argument: `None` and `""` are falsy. -/
def truthyStr (o : Option String) : Bool :=
  match o with
  | none => false
  | some s => s != ""

/-- `a or b` on Python optional strings: the first value if truthy, else the second. -/
def pyOrStr (a b : Option String) : Option String :=
  match a with
  | none => b
  | some s => if s != "" then some s else b

/-- Character-list version of `startswith`. -/
def headMatch : List Char → List Char → Bool
  | [], _ => true
  | _ :: _, [] => false
  | a :: l, b :: m => a == b && headMatch l m

/-- Character-list substring containment (`LIKE '%pat%'`). -/
def subMatch (pat : List Char) (s : List Char) : Bool :=
  match s with
  | [] => headMatch pat []
  | _ :: rest => headMatch pat s || subMatch pat rest

/-- `s.startswith pat` on strings. -/
def strStartsWith (pat s : String) : Bool := headMatch pat.toList s.toList

/-- SQL `col LIKE '%pat%'` on strings. -/
def sqlLike (pat s : String) : Bool := subMatch pat.toList s.toList

/-- One flattened row of `customer_info LEFT JOIN customer_persona`.
Persona columns may be NULL when the persona row is absent; only the
columns the three tools read are carried. -/
structure CustomerRow where
  customer_id : Int
  name : String
  id_card : String
  id_card_masked : String
  available_funds : Rat
  risk_level : Option String
  deriving Repr, DecidableEq

/-- The three optional parameters of `search_customers`. -/
structure CustomerQuery where
  customer_id : Option Int := none
  name : Option String := none
  id_card : Option String := none
  deriving Repr, DecidableEq

/-- The conjunction of the WHERE clauses that `search_customers` appends:
`i.customer_id = ?`, `i.name LIKE '%?%'`, `(i.id_card = ? OR i.id_card_masked = ?)`,
each present only when its parameter is truthy. -/
def matchesCustomer (q : CustomerQuery) (r : CustomerRow) : Bool :=
  (if truthyInt q.customer_id then r.customer_id == q.customer_id.getD 0 else true)
  && (if truthyStr q.name then sqlLike (q.name.getD "") r.name else true)
  && (if truthyStr q.id_card then
        (r.id_card == q.id_card.getD "" || r.id_card_masked == q.id_card.getD "")
      else true)

/-- `search_customers(customer_id=None, name=None, id_card=None)`:
if any truthy filter is supplied, return all rows matching the AND of the
supplied clauses (no LIMIT); otherwise return the first 10 rows. -/
def search_customers (db : List CustomerRow) (q : CustomerQuery) : List CustomerRow :=
  if truthyInt q.customer_id || truthyStr q.name || truthyStr q.id_card then
    db.filter (matchesCustomer q)
  else
    db.take 10

/-- One row of the `wealth_products` table (the columns the tools read). -/
structure ProductRow where
  product_code : String
  product_name : String
  sales_type : String
  product_type : String
  product_status : String
  fund_raising : String
  risk_level : Option String
  issuer : String
  min_purchase_amount : Option Rat
  deriving Repr, DecidableEq

/-- Default value of the `product_status` parameter ("在售" = on-sale). -/
def onSaleStatus : String := "在售"

/-- The optional parameters of `search_wealth_products`.  `product_status`
defaults to `some onSaleStatus`: an omitted parameter takes that value, and
passing an empty or `None` value disables the status filter. -/
structure ProductQuery where
  product_name : Option String := none
  product_code : Option String := none
  sales_type : Option String := none
  product_type : Option String := none
  product_status : Option String := some onSaleStatus
  fund_raising : Option String := none
  risk_level : Option String := none
  issuer : Option String := none
  max_min_purchase : Option Rat := none
  deriving Repr, DecidableEq

/-- SQL equality `col = ?` against a nullable column: NULL compares false. -/
def sqlEqOpt (col : Option String) (v : String) : Bool :=
  match col with
  | none => false
  | some s => s == v

/-- SQL `min_purchase_amount <= ?` against the nullable column: NULL rows are
not returned. -/
def sqlLeOpt (col : Option Rat) (v : Rat) : Bool :=
  match col with
  | none => false
  | some x => x ≤ v

/-- The conjunction of the WHERE clauses `search_wealth_products` appends to
`WHERE 1=1`: an equality per truthy exact filter, a LIKE per truthy substring
filter, and `min_purchase_amount <= ?` whenever `max_min_purchase is not None`. -/
def matchesProduct (q : ProductQuery) (r : ProductRow) : Bool :=
  (if truthyStr q.sales_type then r.sales_type == q.sales_type.getD "" else true)
  && (if truthyStr q.product_type then r.product_type == q.product_type.getD "" else true)
  && (if truthyStr q.product_status then r.product_status == q.product_status.getD "" else true)
  && (if truthyStr q.fund_raising then r.fund_raising == q.fund_raising.getD "" else true)
  && (if truthyStr q.risk_level then sqlEqOpt r.risk_level (q.risk_level.getD "") else true)
  && (if truthyStr q.product_code then r.product_code == q.product_code.getD "" else true)
  && (if truthyStr q.product_name then sqlLike (q.product_name.getD "") r.product_name else true)
  && (if truthyStr q.issuer then sqlLike (q.issuer.getD "") r.issuer else true)
  && (match q.max_min_purchase with
      | none => true
      | some m => sqlLeOpt r.min_purchase_amount m)

/-- SQLite `LIMIT n` with a bound parameter: a negative bound imposes no limit. -/
def sqlLimit {α : Type} (n : Int) (l : List α) : List α :=
  if n < 0 then l else l.take n.toNat

/-- `search_wealth_products(...)`: filter the table by the supplied clauses,
then apply `LIMIT limit` (caller-supplied, default 10). -/
def search_wealth_products (db : List ProductRow) (q : ProductQuery)
    (limit : Int := 10) : List ProductRow :=
  sqlLimit limit (db.filter (matchesProduct q))

/-- The customer risk-tolerance vocabulary `risk_map`:
保守型 (conservative) = 1, 稳健型 (stable) = 2, 平衡型 (balanced) = 3,
成长型 (growth) = 4, 进取型 (aggressive) = 5. -/
def risk_map : List (String × Int) :=
  [("保守型", 1), ("稳健型", 2), ("平衡型", 3), ("成长型", 4), ("进取型", 5)]

/-- The product risk vocabulary `prod_risk_map`:
低风险 (low) = 1, 偏低风险 (slightly-low) = 2, 中等风险 (medium) = 3,
偏高风险 (slightly-high) = 4, 高风险 (high) = 5. -/
def prod_risk_map : List (String × Int) :=
  [("低风险", 1), ("偏低风险", 2), ("中等风险", 3), ("偏高风险", 4), ("高风险", 5)]

/-- Python `d.get(key, default)` where `key` may be NULL (absent from any map). -/
def mapGetD (m : List (String × Int)) (k : Option String) (d : Int) : Int :=
  match k with
  | none => d
  | some s =>
    match m.lookup s with
    | some v => v
    | none => d

/-- `cust_risk_val = risk_map.get(customer['risk_level'], 0)`. -/
def custRiskVal (k : Option String) : Int := mapGetD risk_map k 0

/-- `prod_risk_val = prod_risk_map.get(product['risk_level'], 99)`. -/
def prodRiskVal (k : Option String) : Int := mapGetD prod_risk_map k 99

/-- `risk_match = prod_risk_val <= cust_risk_val`. -/
def riskMatchCalc (crisk prisk : Option String) : Bool :=
  prodRiskVal prisk ≤ custRiskVal crisk

/-- Python `x or 0` on a nullable numeric: `None` and `0` give `0`. -/
def pyOrZero (x : Option Rat) : Rat :=
  match x with
  | none => 0
  | some v => if v == 0 then 0 else v

/-- `funds_match = customer['available_funds'] >= (product['min_purchase_amount'] or 0)`. -/
def fundsMatchCalc (funds : Rat) (minp : Option Rat) : Bool :=
  funds ≥ pyOrZero minp

/-- The result mapping returned by a successful `analyze_suitability` call. -/
structure SuitabilityResult where
  suitability_score : Rat
  is_risk_compatible : Bool
  is_funds_sufficient : Bool
  customer_risk : Option String
  product_risk : Option String
  available_funds : Rat
  min_purchase : Option Rat
  recommendation_status : String
  deriving Repr, DecidableEq

/-- `analyze_suitability` returns either an error mapping `{"error": msg}`
(returned as data, never raised) or the result mapping. -/
inductive SuitOutcome where
  | err (msg : String)
  | ok (r : SuitabilityResult)
  deriving Repr, DecidableEq

/-- The result mapping built at the end of `analyze_suitability`. -/
def mkSuitability (customer : CustomerRow) (product : ProductRow) : SuitabilityResult :=
  let risk_match := riskMatchCalc customer.risk_level product.risk_level
  let funds_match := fundsMatchCalc customer.available_funds product.min_purchase_amount
  { suitability_score := if risk_match && funds_match then 0.95 else 0.4
    is_risk_compatible := risk_match
    is_funds_sufficient := funds_match
    customer_risk := customer.risk_level
    product_risk := product.risk_level
    available_funds := customer.available_funds
    min_purchase := product.min_purchase_amount
    recommendation_status := if risk_match && funds_match then "适配" else "不建议" }

/-- `analyze_suitability(customer_id, product_code)`:
resolve the customer through `search_customers(customer_id=customer_id)`
(error `"Customer not found"` on an empty result, before any product lookup),
then the product by `SELECT * FROM wealth_products WHERE product_code = ?`
with `fetchone()` (error `"Product not found"` when no row matches), then
compute the suitability mapping. -/
def analyze_suitability (cdb : List CustomerRow) (pdb : List ProductRow)
    (customer_id : Int) (product_code : String) : SuitOutcome :=
  match search_customers cdb { customer_id := some customer_id } with
  | [] => .err "Customer not found"
  | customer :: _ =>
    match pdb.find? (fun p => p.product_code == product_code) with
    | none => .err "Product not found"
    | some product => .ok (mkSuitability customer product)

/-- The header values `require_auth` reads: the results of
`headers.get("x-api-key")`, `headers.get("X-API-Key")`,
`headers.get("authorization")` and `headers.get("Authorization")`. -/
structure Headers where
  xApiKeyLower : Option String := none
  xApiKeyUpper : Option String := none
  authLower : Option String := none
  authUpper : Option String := none
  deriving Repr, DecidableEq

/-- Verdict of the header check inside `require_auth`. -/
inductive AuthResult where
  | rejected (msg : String) (code : Int)
  | allowed
  deriving Repr, DecidableEq

/-- The body of `require_auth`'s wrapper once headers are available:
`api_key = headers.get("x-api-key") or headers.get("X-API-Key")`,
`auth_header = headers.get("authorization") or headers.get("Authorization")`,
then the if/elif/else cascade of 401 error mappings. -/
def checkAuth (secret : String) (h : Headers) : AuthResult :=
  let api_key := pyOrStr h.xApiKeyLower h.xApiKeyUpper
  let auth_header := pyOrStr h.authLower h.authUpper
  if truthyStr api_key then
    if api_key.getD "" != secret then .rejected "Invalid API Key" 401 else .allowed
  else if truthyStr auth_header then
    let a := auth_header.getD ""
    if strStartsWith "Bearer " a then
      if a.drop 7 != secret then .rejected "Invalid Bearer Token" 401 else .allowed
    else .rejected "Invalid Authorization format" 401
  else .rejected "Missing authentication. Provide X-API-Key header." 401

/-- Result of a wrapped tool call: either the 401 error mapping returned by the
decorator, or the wrapped function's own result. -/
inductive Wrapped (α : Type) where
  | authError (msg : String) (code : Int)
  | result (a : α)
  deriving Repr, DecidableEq

/-- `require_auth(func)` applied to one call.  `headers = none` models the
stdio channel where `get_http_headers()` raises and the check is skipped;
`headers = some h` models a header-bearing (SSE/HTTP) channel.  The body runs
only when the check passes. -/
def require_auth {α : Type} (secret : String) (headers : Option Headers)
    (body : Unit → α) : Wrapped α :=
  match headers with
  | none => .result (body ())
  | some h =>
    match checkAuth secret h with
    | .rejected m c => .authError m c
    | .allowed => .result (body ())

/-- The configured secret's default value (`MCP_API_KEY` unset). -/
def defaultApiKey : String := "xm-crm-default-dev-key-2026"

/-- A concrete conservative customer (spec scenario 1). -/
def cust1 : CustomerRow :=
  { customer_id := 1, name := "张三", id_card := "350200199001011234"
    id_card_masked := "3502**1234", available_funds := 50000
    risk_level := some "保守型" }

/-- A concrete low-risk on-sale product (spec scenario 1). -/
def prod1 : ProductRow :=
  { product_code := "P1", product_name := "稳利一号", sales_type := "自营"
    product_type := "理财", product_status := "在售", fund_raising := "公募"
    risk_level := some "低风险", issuer := "XM", min_purchase_amount := some 10000 }

/-- A second concrete customer row, distinct `customer_id`. -/
def cust2 : CustomerRow :=
  { customer_id := 2, name := "李四", id_card := "350200199202022345"
    id_card_masked := "3502**2345", available_funds := 8000
    risk_level := some "进取型" }

/-- A concrete fully-filtered product query matching `prod1`. -/
def query1 : ProductQuery :=
  { sales_type := some "自营", product_type := some "理财"
    product_status := some "在售", fund_raising := some "公募"
    risk_level := some "低风险", product_code := some "P1"
    max_min_purchase := some 20000 }

/-- An element of the output of a SQLite `LIMIT` is an element of its input. -/
theorem mem_of_mem_sqlLimit {α : Type} {n : Int} {l : List α} {a : α}
    (h : a ∈ sqlLimit n l) : a ∈ l := by
  unfold sqlLimit at h
  split at h
  · exact h
  · exact List.take_subset _ _ h

/-- A filter whose predicate forces a fixed key value keeps at most one element
of a list whose key values are pairwise distinct. -/
theorem filter_by_key_len {α : Type} (p : α → Bool) (key : α → Int) (c : Int)
    (l : List α) (hp : ∀ r, p r = true → key r = c)
    (h : l.Pairwise fun a b => key a ≠ key b) :
    (l.filter p).length ≤ 1 := by
  induction l with
  | nil => simp
  | cons a t ih =>
    rw [List.pairwise_cons] at h
    by_cases ha : p a = true
    · have ht : t.filter p = [] := by
        rw [List.filter_eq_nil_iff]
        intro b hb hpb
        exact h.1 b hb (by rw [hp a ha, hp b hpb])
      simp [List.filter_cons, ha, ht]
    · simp only [List.filter_cons, ha, if_neg]
      simpa using ih h.2

/-- Every value stored in `risk_map` lies between 1 and 5. -/
theorem lookup_risk_map_le (s : String) (v : Int)
    (h : risk_map.lookup s = some v) : 1 ≤ v ∧ v ≤ 5 := by
  simp only [risk_map, List.lookup] at h
  repeat' split at h
  all_goals simp_all
  all_goals omega

/-- Every looked-up customer risk rank is at most 5, and the fallback is 0. -/
theorem custRiskVal_le_five (k : Option String) : custRiskVal k ≤ 5 := by
  cases k with
  | none => decide
  | some s =>
    simp only [custRiskVal, mapGetD]
    cases h : List.lookup s risk_map with
    | none => decide
    | some v => exact (lookup_risk_map_le s v h).2

/-- C1: when both the customer and the product are found, `analyze_suitability`
returns a result mapping whose score is 0.95 with recommendation "适配"
(suitable) exactly when both component booleans hold, and otherwise 0.4 with
"不建议" (not recommended); the mapping also exposes the two component
booleans, both raw risk labels, and both raw numeric values. -/
theorem C1_suitability_composition (cdb : List CustomerRow) (pdb : List ProductRow)
    (customer_id : Int) (product_code : String)
    (customer : CustomerRow) (rest : List CustomerRow) (product : ProductRow)
    (hc : search_customers cdb { customer_id := some customer_id } = customer :: rest)
    (hp : pdb.find? (fun p => p.product_code == product_code) = some product) :
    ∃ r, analyze_suitability cdb pdb customer_id product_code = SuitOutcome.ok r ∧
      (r.suitability_score = 0.95 ∧ r.recommendation_status = "适配" ↔
        r.is_risk_compatible = true ∧ r.is_funds_sufficient = true) ∧
      (r.is_risk_compatible = false ∨ r.is_funds_sufficient = false →
        r.suitability_score = 0.4 ∧ r.recommendation_status = "不建议") ∧
      r.is_risk_compatible = riskMatchCalc customer.risk_level product.risk_level ∧
      r.is_funds_sufficient = fundsMatchCalc customer.available_funds product.min_purchase_amount ∧
      r.customer_risk = customer.risk_level ∧
      r.product_risk = product.risk_level ∧
      r.available_funds = customer.available_funds ∧
      r.min_purchase = product.min_purchase_amount := by
  refine ⟨mkSuitability customer product, ?_, ?_⟩
  · simp only [analyze_suitability, hc, hp]
  · cases hr : riskMatchCalc customer.risk_level product.risk_level <;>
      cases hf : fundsMatchCalc customer.available_funds product.min_purchase_amount <;>
      simp [mkSuitability, hr, hf]

/-- C1 witness: scenario 1 (conservative customer, low-risk affordable product). -/
theorem C1_suitability_composition_witness :
    ∃ r, analyze_suitability [cust1] [prod1] 1 "P1" = SuitOutcome.ok r ∧
      (r.suitability_score = 0.95 ∧ r.recommendation_status = "适配" ↔
        r.is_risk_compatible = true ∧ r.is_funds_sufficient = true) ∧
      (r.is_risk_compatible = false ∨ r.is_funds_sufficient = false →
        r.suitability_score = 0.4 ∧ r.recommendation_status = "不建议") ∧
      r.is_risk_compatible = riskMatchCalc cust1.risk_level prod1.risk_level ∧
      r.is_funds_sufficient = fundsMatchCalc cust1.available_funds prod1.min_purchase_amount ∧
      r.customer_risk = cust1.risk_level ∧
      r.product_risk = prod1.risk_level ∧
      r.available_funds = cust1.available_funds ∧
      r.min_purchase = prod1.min_purchase_amount :=
  C1_suitability_composition [cust1] [prod1] 1 "P1" cust1 [] prod1
    (by decide) (by decide)

/-- C2: for labels inside both vocabularies, `risk_match` holds exactly when
the product's ordinal rank is at most the customer's ordinal rank. -/
theorem C2_risk_match_is_rank_le (cl pl : String) (cr pr : Int)
    (hc : risk_map.lookup cl = some cr)
    (hp : prod_risk_map.lookup pl = some pr) :
    riskMatchCalc (some cl) (some pl) = true ↔ pr ≤ cr := by
  simp [riskMatchCalc, custRiskVal, prodRiskVal, mapGetD, hc, hp]

/-- C2 witness: 保守型 (rank 1) against 低风险 (rank 1). -/
theorem C2_risk_match_is_rank_le_witness :
    riskMatchCalc (some "保守型") (some "低风险") = true ↔ (1 : Int) ≤ 1 :=
  C2_risk_match_is_rank_le "保守型" "低风险" 1 1 (by decide) (by decide)

/-- C3: a missing or unrecognized customer label ranks 0, so `risk_match`
fails against every product ranking at least 1; a missing or unrecognized
product label ranks 99, so `risk_match` fails for every customer. -/
theorem C3_fallback_ranks (crisk prisk : Option String) :
    ((∀ s, crisk = some s → risk_map.lookup s = none) →
      custRiskVal crisk = 0 ∧
      (1 ≤ prodRiskVal prisk → riskMatchCalc crisk prisk = false)) ∧
    ((∀ s, prisk = some s → prod_risk_map.lookup s = none) →
      prodRiskVal prisk = 99 ∧
      ∀ crisk2, riskMatchCalc crisk2 prisk = false) := by
  constructor
  · intro h
    have h0 : custRiskVal crisk = 0 := by
      cases crisk with
      | none => rfl
      | some s => simp [custRiskVal, mapGetD, h s rfl]
    refine ⟨h0, fun h1 => ?_⟩
    simp only [riskMatchCalc, h0, decide_eq_false_iff_not, not_le]
    omega
  · intro h
    have h99 : prodRiskVal prisk = 99 := by
      cases prisk with
      | none => rfl
      | some s => simp [prodRiskVal, mapGetD, h s rfl]
    refine ⟨h99, fun crisk2 => ?_⟩
    have h5 := custRiskVal_le_five crisk2
    simp only [riskMatchCalc, h99, decide_eq_false_iff_not, not_le]
    omega

/-- C3 witness: an unrecognized customer label and a NULL product label. -/
theorem C3_fallback_ranks_witness :
    (custRiskVal (some "未知型") = 0 ∧
      (1 ≤ prodRiskVal (some "低风险") →
        riskMatchCalc (some "未知型") (some "低风险") = false)) ∧
    (prodRiskVal none = 99 ∧ ∀ crisk2, riskMatchCalc crisk2 none = false) :=
  ⟨(C3_fallback_ranks (some "未知型") (some "低风险")).1 (by decide),
   (C3_fallback_ranks (some "保守型") none).2 (by decide)⟩

/-- C4: `funds_match` holds exactly when available funds reach the minimum
purchase amount, a NULL minimum counting as 0; in particular funds 0 against
a NULL minimum is a match. -/
theorem C4_funds_match (funds : Rat) (minp : Option Rat) :
    (fundsMatchCalc funds minp = true ↔ funds ≥ minp.getD 0) ∧
    fundsMatchCalc 0 none = true := by
  refine ⟨?_, by decide⟩
  have hz : pyOrZero minp = minp.getD 0 := by
    cases minp with
    | none => rfl
    | some v =>
      simp only [pyOrZero, Option.getD_some]
      split
      · next h => simp only [beq_iff_eq] at h; exact h.symm
      · rfl
  simp [fundsMatchCalc, hz]

/-- C5: an empty customer lookup yields the "Customer not found" error mapping
with no dependence on the product table, and an existing customer with an
empty product lookup yields the "Product not found" error mapping; both are
returned as data. -/
theorem C5_not_found_errors (cdb : List CustomerRow) (pdb pdb2 : List ProductRow)
    (cid : Int) (pc : String) :
    (search_customers cdb { customer_id := some cid } = [] →
      analyze_suitability cdb pdb cid pc = SuitOutcome.err "Customer not found" ∧
      analyze_suitability cdb pdb cid pc = analyze_suitability cdb pdb2 cid pc) ∧
    (∀ customer rest,
      search_customers cdb { customer_id := some cid } = customer :: rest →
      pdb.find? (fun p => p.product_code == pc) = none →
      analyze_suitability cdb pdb cid pc = SuitOutcome.err "Product not found") := by
  constructor
  · intro h
    constructor
    · simp only [analyze_suitability, h]
    · simp only [analyze_suitability, h]
  · intro customer rest hc hp
    simp only [analyze_suitability, hc, hp]

/-- C5 witness: customer 9999 absent (scenario 4), and product "X" absent. -/
theorem C5_not_found_errors_witness :
    (analyze_suitability [] [prod1] 9999 "X" = SuitOutcome.err "Customer not found" ∧
     analyze_suitability [] [prod1] 9999 "X" = analyze_suitability [] [] 9999 "X") ∧
    analyze_suitability [cust1] [prod1] 1 "X" = SuitOutcome.err "Product not found" :=
  ⟨(C5_not_found_errors [] [prod1] [] 9999 "X").1 (by decide),
   (C5_not_found_errors [cust1] [prod1] [] 1 "X").2 cust1 [] (by decide) (by decide)⟩

/-- C6 counterexample: with `customer_id = 0` supplied (and no other filter),
no predicate is added, so a two-row table comes back whole: the result has
length 2 and contains a row whose `customer_id` is not 0. -/
theorem C6_counterexample :
    ¬ ((search_customers [cust1, cust2] { customer_id := some 0 }).length ≤ 1 ∧
       ∀ r ∈ search_customers [cust1, cust2] { customer_id := some 0 },
         r.customer_id = 0) := by
  decide

/-- With a nonzero id the only WHERE clause is `i.customer_id = ?`. -/
theorem matchesCustomer_id_eq (cid : Int) (hcid : cid ≠ 0) (r : CustomerRow) :
    matchesCustomer { customer_id := some cid } r = (r.customer_id == cid) := by
  simp [matchesCustomer, truthyInt, truthyStr, hcid]

/-- C6 amended: when the supplied `customer_id` is nonzero (truthy) and the
table's `customer_id` values are pairwise distinct (the unique-key invariant),
the result of an id-only search has at most one row, and any returned row
carries the queried id. -/
theorem C6_exact_id_lookup (db : List CustomerRow) (cid : Int) (hcid : cid ≠ 0)
    (huniq : db.Pairwise fun a b => a.customer_id ≠ b.customer_id) :
    (search_customers db { customer_id := some cid }).length ≤ 1 ∧
    ∀ r ∈ search_customers db { customer_id := some cid }, r.customer_id = cid := by
  have hs : search_customers db { customer_id := some cid } =
      db.filter (matchesCustomer { customer_id := some cid }) := by
    simp [search_customers, truthyInt, truthyStr, hcid]
  constructor
  · rw [hs]
    refine filter_by_key_len _ (fun r => r.customer_id) cid db ?_ huniq
    intro r hr
    rw [matchesCustomer_id_eq cid hcid] at hr
    exact eq_of_beq hr
  · intro r hr
    rw [hs, List.mem_filter] at hr
    have h2 := hr.2
    rw [matchesCustomer_id_eq cid hcid] at h2
    exact eq_of_beq h2

/-- C6 amended witness: id-only lookup of customer 1 in a two-row table. -/
theorem C6_exact_id_lookup_witness :
    (search_customers [cust1, cust2] { customer_id := some 1 }).length ≤ 1 ∧
    ∀ r ∈ search_customers [cust1, cust2] { customer_id := some 1 },
      r.customer_id = 1 :=
  C6_exact_id_lookup [cust1, cust2] 1 (by decide) (by simp [cust1, cust2])

/-- C7 counterexample: supplying `sales_type = ""` (an exact-match filter with
an empty value) adds no predicate, so a product whose `sales_type` is "自营"
is still returned and does not equal the supplied value. -/
theorem C7_counterexample :
    prod1 ∈ search_wealth_products [prod1] { sales_type := some "" } 10 ∧
    prod1.sales_type ≠ "" := by
  decide

/-- A truthy exact-filter clause forces equality with the column. -/
theorem exact_clause_eq {b v : String} (hne : v ≠ "")
    (h : (if truthyStr (some v) then b == v else true) = true) : b = v := by
  simp [truthyStr, hne] at h
  exact h

/-- A truthy risk-level clause forces the nullable column to hold the value. -/
theorem sqlEqOpt_eq {col : Option String} {v : String} (h : sqlEqOpt col v = true) :
    col = some v := by
  cases col with
  | none => simp [sqlEqOpt] at h
  | some s => simp [sqlEqOpt] at h; rw [h]

/-- C7 amended: every returned product satisfies each supplied exact-match
filter whose value is non-empty (an empty value disables the clause, exactly
as an empty `product_status` disables the on-sale default), satisfies
`min_purchase_amount <= max_min_purchase` (with a non-NULL amount) whenever
that filter is supplied, and carries the on-sale status when `product_status`
keeps its default. -/
theorem C7_product_filters (db : List ProductRow) (q : ProductQuery) (limit : Int)
    (r : ProductRow) (hr : r ∈ search_wealth_products db q limit) :
    (∀ v, q.sales_type = some v → v ≠ "" → r.sales_type = v) ∧
    (∀ v, q.product_type = some v → v ≠ "" → r.product_type = v) ∧
    (∀ v, q.product_status = some v → v ≠ "" → r.product_status = v) ∧
    (∀ v, q.fund_raising = some v → v ≠ "" → r.fund_raising = v) ∧
    (∀ v, q.risk_level = some v → v ≠ "" → r.risk_level = some v) ∧
    (∀ v, q.product_code = some v → v ≠ "" → r.product_code = v) ∧
    (∀ m, q.max_min_purchase = some m →
      ∃ v, r.min_purchase_amount = some v ∧ v ≤ m) ∧
    (q.product_status = some onSaleStatus → r.product_status = onSaleStatus) := by
  have hm : matchesProduct q r = true :=
    (List.mem_filter.mp (mem_of_mem_sqlLimit hr)).2
  simp only [matchesProduct, Bool.and_eq_true] at hm
  obtain ⟨⟨⟨⟨⟨⟨⟨⟨h1, h2⟩, h3⟩, h4⟩, h5⟩, h6⟩, h7⟩, h8⟩, h9⟩ := hm
  have hstat : ∀ v, q.product_status = some v → v ≠ "" → r.product_status = v := by
    intro v hv hne
    rw [hv] at h3
    exact exact_clause_eq hne h3
  refine ⟨?_, ?_, hstat, ?_, ?_, ?_, ?_, ?_⟩
  · intro v hv hne
    rw [hv] at h1
    exact exact_clause_eq hne h1
  · intro v hv hne
    rw [hv] at h2
    exact exact_clause_eq hne h2
  · intro v hv hne
    rw [hv] at h4
    exact exact_clause_eq hne h4
  · intro v hv hne
    rw [hv] at h5
    simp only [truthyStr, hne, if_pos, bne_iff_ne, ne_eq, not_false_iff, if_true] at h5
    exact sqlEqOpt_eq h5
  · intro v hv hne
    rw [hv] at h6
    exact exact_clause_eq hne h6
  · intro m hv
    rw [hv] at h9
    cases hmin : r.min_purchase_amount with
    | none => rw [hmin] at h9; simp [sqlLeOpt] at h9
    | some x =>
      rw [hmin] at h9
      simp only [sqlLeOpt, decide_eq_true_eq] at h9
      exact ⟨x, rfl, h9⟩
  · intro hv
    exact hstat onSaleStatus hv (by decide)

/-- C7 amended witness: `prod1` returned under every exact filter at once. -/
theorem C7_product_filters_witness :
    (∀ v, query1.sales_type = some v → v ≠ "" → prod1.sales_type = v) ∧
    (∀ v, query1.product_type = some v → v ≠ "" → prod1.product_type = v) ∧
    (∀ v, query1.product_status = some v → v ≠ "" → prod1.product_status = v) ∧
    (∀ v, query1.fund_raising = some v → v ≠ "" → prod1.fund_raising = v) ∧
    (∀ v, query1.risk_level = some v → v ≠ "" → prod1.risk_level = some v) ∧
    (∀ v, query1.product_code = some v → v ≠ "" → prod1.product_code = v) ∧
    (∀ m, query1.max_min_purchase = some m →
      ∃ v, prod1.min_purchase_amount = some v ∧ v ≤ m) ∧
    (query1.product_status = some onSaleStatus →
      prod1.product_status = onSaleStatus) :=
  C7_product_filters [prod1] query1 10 prod1 (by decide)

/-- C8 counterexample: with `limit = -1` (a legal `int` argument) SQLite's
LIMIT imposes no bound, so one matching row already exceeds the supplied
limit, refuting "the number of returned records never exceeds the
caller-supplied limit". -/
theorem C8_counterexample :
    ¬ (((search_wealth_products [prod1] { } (-1)).length : Int) ≤ -1) := by
  decide

/-- C8 amended: for every nonnegative `limit` the product search returns at
most `limit` rows (a negative limit disables the cap, per SQLite), and a
customer search with no filters supplied returns at most 10 rows. -/
theorem C8_limit_caps (db : List ProductRow) (q : ProductQuery) (limit : Int)
    (hl : 0 ≤ limit) (cdb : List CustomerRow) (cq : CustomerQuery)
    (h1 : cq.customer_id = none) (h2 : cq.name = none) (h3 : cq.id_card = none) :
    ((search_wealth_products db q limit).length : Int) ≤ limit ∧
    (search_customers cdb cq).length ≤ 10 := by
  constructor
  · unfold search_wealth_products sqlLimit
    rw [if_neg (by omega)]
    have ht := List.length_take_le limit.toNat (db.filter (matchesProduct q))
    omega
  · have e : search_customers cdb cq = cdb.take 10 := by
      simp [search_customers, h1, h2, h3, truthyInt, truthyStr]
    rw [e]
    exact List.length_take_le 10 cdb

/-- C8 amended witness: default limit 10 and a filterless customer search. -/
theorem C8_limit_caps_witness :
    ((search_wealth_products [prod1] { } 10).length : Int) ≤ 10 ∧
    (search_customers [cust1, cust2] { }).length ≤ 10 :=
  C8_limit_caps [prod1] { } 10 (by decide) [cust1, cust2] { } rfl rfl rfl

/-- C9 counterexample: an `X-API-Key` header that is present with the empty
value differs from the secret, yet the wrapper answers with the
missing-authentication message rather than "Invalid API Key"; and a valid
`X-API-Key` together with a bad `Bearer` token lets the call through instead
of rejecting it with the invalid-bearer-token message. -/
theorem C9_counterexample :
    require_auth defaultApiKey (some { xApiKeyLower := some "" })
        (fun _ => (0 : Nat)) =
      Wrapped.authError "Missing authentication. Provide X-API-Key header." 401 ∧
    ("" : String) ≠ defaultApiKey ∧
    require_auth defaultApiKey
        (some { xApiKeyLower := some defaultApiKey, authLower := some "Bearer wrong" })
        (fun _ => (0 : Nat)) = Wrapped.result 0 ∧
    strStartsWith "Bearer " "Bearer wrong" = true ∧
    ("Bearer wrong".drop 7) ≠ defaultApiKey := by
  decide

/-- C9 amended: on a header-bearing channel the wrapper rejects with a
401-coded error before the body runs when the effective key and authorization
values (first truthy of the two header spellings) are both non-truthy
(missing message), when the key is present and non-empty but wrong
(invalid-key message), and — only when no truthy key is present — when the
authorization value is non-empty and either carries a wrong `Bearer` token
(invalid-bearer message) or lacks the `Bearer ` head (malformed message);
without headers the body runs unconditionally. -/
theorem C9_auth_gate {α : Type} (secret : String) (h : Headers) (body : Unit → α) :
    (truthyStr (pyOrStr h.xApiKeyLower h.xApiKeyUpper) = false →
      truthyStr (pyOrStr h.authLower h.authUpper) = false →
      require_auth secret (some h) body =
        Wrapped.authError "Missing authentication. Provide X-API-Key header." 401) ∧
    (∀ k, pyOrStr h.xApiKeyLower h.xApiKeyUpper = some k → k ≠ "" → k ≠ secret →
      require_auth secret (some h) body =
        Wrapped.authError "Invalid API Key" 401) ∧
    (∀ a, truthyStr (pyOrStr h.xApiKeyLower h.xApiKeyUpper) = false →
      pyOrStr h.authLower h.authUpper = some a → a ≠ "" →
      strStartsWith "Bearer " a = true → a.drop 7 ≠ secret →
      require_auth secret (some h) body =
        Wrapped.authError "Invalid Bearer Token" 401) ∧
    (∀ a, truthyStr (pyOrStr h.xApiKeyLower h.xApiKeyUpper) = false →
      pyOrStr h.authLower h.authUpper = some a → a ≠ "" →
      strStartsWith "Bearer " a = false →
      require_auth secret (some h) body =
        Wrapped.authError "Invalid Authorization format" 401) ∧
    require_auth secret none body = Wrapped.result (body ()) := by
  refine ⟨?_, ?_, ?_, ?_, rfl⟩
  · intro hk ha
    simp only [require_auth, checkAuth, hk, ha, Bool.false_eq_true, if_false]
  · intro k hk hne hns
    simp only [require_auth, checkAuth, hk]
    simp [truthyStr, hne, hns]
  · intro a hk ha hne hbear hdrop
    simp only [require_auth, checkAuth, hk, ha, Bool.false_eq_true, if_false]
    simp [truthyStr, hne, hbear, hdrop]
  · intro a hk ha hne hbear
    simp only [require_auth, checkAuth, hk, ha, Bool.false_eq_true, if_false]
    simp [truthyStr, hne, hbear]

/-- C9 amended witness: one concrete header set per rejection case, plus the
header-less channel. -/
theorem C9_auth_gate_witness :
    require_auth defaultApiKey (some { }) (fun _ => (0 : Nat)) =
      Wrapped.authError "Missing authentication. Provide X-API-Key header." 401 ∧
    require_auth defaultApiKey (some { xApiKeyLower := some "wrong" })
        (fun _ => (0 : Nat)) = Wrapped.authError "Invalid API Key" 401 ∧
    require_auth defaultApiKey (some { authLower := some "Bearer wrong" })
        (fun _ => (0 : Nat)) = Wrapped.authError "Invalid Bearer Token" 401 ∧
    require_auth defaultApiKey (some { authLower := some "Basic abc" })
        (fun _ => (0 : Nat)) = Wrapped.authError "Invalid Authorization format" 401 ∧
    require_auth defaultApiKey none (fun _ => (0 : Nat)) = Wrapped.result 0 :=
  ⟨(C9_auth_gate defaultApiKey { } (fun _ => (0 : Nat))).1 (by decide) (by decide),
   (C9_auth_gate defaultApiKey { xApiKeyLower := some "wrong" }
      (fun _ => (0 : Nat))).2.1 "wrong" (by decide) (by decide) (by decide),
   (C9_auth_gate defaultApiKey { authLower := some "Bearer wrong" }
      (fun _ => (0 : Nat))).2.2.1 "Bearer wrong" (by decide) (by decide)
      (by decide) (by decide) (by decide),
   (C9_auth_gate defaultApiKey { authLower := some "Basic abc" }
      (fun _ => (0 : Nat))).2.2.2.1 "Basic abc" (by decide) (by decide)
      (by decide) (by decide),
   (C9_auth_gate defaultApiKey { } (fun _ => (0 : Nat))).2.2.2.2⟩

/-- C10: falsy filter values (`customer_id = 0`, `name = ""`, `id_card = ""`)
add no predicate in `search_customers`; with all three falsy the call returns
the unfiltered first 10 rows, which need not carry `customer_id = 0`. -/
theorem C10_falsy_filters :
    (∀ (db : List CustomerRow) (n i : Option String),
      search_customers db { customer_id := some 0, name := n, id_card := i } =
        search_customers db { customer_id := none, name := n, id_card := i }) ∧
    (∀ (db : List CustomerRow) (c : Option Int) (i : Option String),
      search_customers db { customer_id := c, name := some "", id_card := i } =
        search_customers db { customer_id := c, name := none, id_card := i }) ∧
    (∀ (db : List CustomerRow) (c : Option Int) (n : Option String),
      search_customers db { customer_id := c, name := n, id_card := some "" } =
        search_customers db { customer_id := c, name := n, id_card := none }) ∧
    (∀ db : List CustomerRow,
      search_customers db
          { customer_id := some 0, name := some "", id_card := some "" } =
        db.take 10 ∧
      (search_customers db
          { customer_id := some 0, name := some "", id_card := some "" }).length ≤ 10) ∧
    (∃ (db : List CustomerRow) (r : CustomerRow),
      r ∈ search_customers db
          { customer_id := some 0, name := some "", id_card := some "" } ∧
      r.customer_id ≠ 0) := by
  refine ⟨fun db n i => rfl, fun db c i => rfl, fun db c n => rfl,
    fun db => ⟨rfl, List.length_take_le 10 db⟩,
    ⟨[cust1], cust1, by decide, by decide⟩⟩
